import Mathlib

/-!
Verification of the capability-driven MCU composition engine:
`hw/arm/cortexm-mcu.c` (generic Cortex-M layer) and
`hw/cortexm/stm32/mcu.c` (STM32 vendor layer).

The C code is shallowly embedded: the pure decision logic of
`cortexm_mcu_realize`, `cortexm_mcu_memory_regions_create`,
`cortexm_mcu_image_load`, `stm32_mcu_realize_callback` and
`stm32_mcu_reset_callback` is translated into executable Lean functions.
External collaborators (the ELF/flat-binary loaders, the CPU factory) are
passed in as oracle parameters; machine integers are modelled by `Nat`/`Int`
(all the quantities involved are small and non-negative in the C code).
-/

/-- Core models supported by the Cortex-M MCU layer (`cortexm_models_t`,
the cases of the hard-wiring switch in `cortexm_mcu_realize`). -/
inductive CortexMModel
  | M0
  | M0PLUS
  | M1
  | M3
  | M4
  | M4F
  | M7
  | M7F
deriving DecidableEq, Repr

/-- FPU variants (`cortexm_fpu_type_t`): none, FPV4-SP-D16, FPV5-SP-D16. -/
inductive CortexMFpuType
  | noFpu
  | fpv4SpD16
  | fpv5SpD16
deriving DecidableEq, Repr

/-- The fields of `CortexMCapabilities` read or written by
`cortexm_mcu_realize` (hw/arm/cortexm-mcu.c): core model, hard-wired feature
flags, default SRAM/Flash sizes in KiB, default interrupt-line count, ITM
presence. -/
structure CortexMCapabilities where
  cortexm_model : CortexMModel
  has_mpu : Bool
  has_fpu : Bool
  fpu_type : CortexMFpuType
  sram_size_kb : Nat
  flash_size_kb : Nat
  num_irq : Nat
  has_itm : Bool
deriving DecidableEq, Repr

/-- `#define DEFAULT_NUM_IRQ 256` (hw/arm/cortexm-mcu.c line 41). -/
def DEFAULT_NUM_IRQ : Nat := 256

/-- The `--cpu` override handling at the top of `cortexm_mcu_realize`
(lines 132-160): a recognised name overwrites the descriptor's core model
(and, for the m4/m4f/m7/m7f names, also the MPU flag); any other name is a
fatal configuration error. -/
def cortexm_cpu_model_override (cpu_model_arg : String)
    (c : CortexMCapabilities) : Except String CortexMCapabilities :=
  if cpu_model_arg = "cortex-m0" then
    Except.ok { c with cortexm_model := CortexMModel.M0 }
  else if cpu_model_arg = "cortex-m0p" then
    Except.ok { c with cortexm_model := CortexMModel.M0PLUS }
  else if cpu_model_arg = "cortex-m1" then
    Except.ok { c with cortexm_model := CortexMModel.M1 }
  else if cpu_model_arg = "cortex-m3" then
    Except.ok { c with cortexm_model := CortexMModel.M3 }
  else if cpu_model_arg = "cortex-m4" then
    Except.ok { c with cortexm_model := CortexMModel.M4, has_mpu := false }
  else if cpu_model_arg = "cortex-m4f" then
    Except.ok { c with cortexm_model := CortexMModel.M4F, has_mpu := true }
  else if cpu_model_arg = "cortex-m7" then
    Except.ok { c with cortexm_model := CortexMModel.M7, has_mpu := false }
  else if cpu_model_arg = "cortex-m7f" then
    Except.ok { c with cortexm_model := CortexMModel.M7F, has_mpu := true }
  else
    Except.error ("Illegal --cpu " ++ cpu_model_arg ++ ", only cortex-m* supported.")

/-- The per-model interrupt-line ceiling: `max_num_irq` starts at 496
(line 165) and is lowered to 240 only in the `CORTEX_M3` case (line 197). -/
def modelMaxNumIrq : CortexMModel → Nat
  | CortexMModel.M3 => 240
  | _ => 496

/-- The `cpu_model` identifier string chosen by the hard-wiring switch
(lines 168-234) and stored into `cm_state->cpu_model`; note the
`"cortex-mf4"` spelling in the `CORTEX_M4F` case (line 211). -/
def modelCpuModel : CortexMModel → String
  | CortexMModel.M0 => "cortex-m0"
  | CortexMModel.M0PLUS => "cortex-m0p"
  | CortexMModel.M1 => "cortex-m1"
  | CortexMModel.M3 => "cortex-m3"
  | CortexMModel.M4 => "cortex-m4"
  | CortexMModel.M4F => "cortex-mf4"
  | CortexMModel.M7 => "cortex-m7"
  | CortexMModel.M7F => "cortex-m7f"

/-- The capability-flag assignments of the hard-wiring switch in
`cortexm_mcu_realize` (lines 168-234): every case forces `has_fpu` and
`fpu_type`; only the M0/M0+/M1 cases also force `has_mpu`. -/
def hardWireCaps (c : CortexMCapabilities) : CortexMCapabilities :=
  match c.cortexm_model with
  | CortexMModel.M0 =>
      { c with has_mpu := false, has_fpu := false, fpu_type := CortexMFpuType.noFpu }
  | CortexMModel.M0PLUS =>
      { c with has_mpu := false, has_fpu := false, fpu_type := CortexMFpuType.noFpu }
  | CortexMModel.M1 =>
      { c with has_mpu := false, has_fpu := false, fpu_type := CortexMFpuType.noFpu }
  | CortexMModel.M3 =>
      { c with has_fpu := false, fpu_type := CortexMFpuType.noFpu }
  | CortexMModel.M4 =>
      { c with has_fpu := false, fpu_type := CortexMFpuType.noFpu }
  | CortexMModel.M4F =>
      { c with has_fpu := true, fpu_type := CortexMFpuType.fpv4SpD16 }
  | CortexMModel.M7 =>
      { c with has_fpu := false, fpu_type := CortexMFpuType.noFpu }
  | CortexMModel.M7F =>
      { c with has_fpu := true, fpu_type := CortexMFpuType.fpv5SpD16 }

/-- Capability resolution as performed by `cortexm_mcu_realize`: apply the
optional `--cpu` override (lines 132-160), then the hard-wiring switch
(lines 168-234). -/
def resolveCapabilities (cpu_model_arg : Option String)
    (c : CortexMCapabilities) : Except String CortexMCapabilities :=
  match cpu_model_arg with
  | none => Except.ok (hardWireCaps c)
  | some a =>
      match cortexm_cpu_model_override a c with
      | Except.ok c2 => Except.ok (hardWireCaps c2)
      | Except.error e => Except.error e

/-- SRAM-size resolution (lines 239-252): a non-zero `-m`/`--global`
argument overrides the descriptor default, and the result is clamped to
32 MiB (32768 KiB) to avoid overlapping the bit-band area. -/
def resolveSramSizeKb (ram_size_arg_kb sram_size_kb_default : Nat) : Nat :=
  let s := if ram_size_arg_kb ≠ 0 then ram_size_arg_kb else sram_size_kb_default
  if s > 32 * 1024 then 32 * 1024 else s

/-- Flash-size resolution (lines 254-262): a non-zero argument overrides the
descriptor default; there is no clamp. -/
def resolveFlashSizeKb (flash_size_arg_kb flash_size_kb_default : Nat) : Nat :=
  if flash_size_arg_kb ≠ 0 then flash_size_arg_kb else flash_size_kb_default

/-- Interrupt-line count resolution (lines 308-320): take the descriptor
default (or `DEFAULT_NUM_IRQ` when it is 0), clamp to `max_num_irq`, then
round up with `(num_irq + 31) & ~31`; on non-negative values that bit-mask
equals discarding the remainder of `num_irq + 31` modulo 32. -/
def resolveNumIrq (cap_num_irq max_num_irq : Nat) : Nat :=
  let n1 := if cap_num_irq ≠ 0 then cap_num_irq else DEFAULT_NUM_IRQ
  let n2 := if n1 > max_num_irq then max_num_irq else n1
  n2 + 31 - (n2 + 31) % 32

/-- One attempt made by the image loader, in the order it is made:
a structured (ELF) parse, or a flat-binary load at a target address bounded
by a maximum size. -/
inductive LoadAttempt
  | elfFile (path : String)
  | flatBinary (path : String) (addr : Nat) (max_size : Nat)
deriving DecidableEq, Repr

/-- `cortexm_mcu_image_load` (lines 407-446) for a configured image path.
The external collaborators `load_elf` and `load_image_targphys` are modelled
by their integer results (negative means failure), passed in as oracle
parameters.  Returns the attempts made, in order, and either success or the
fatal error message (`error_report` + `exit(1)` in the C code). -/
def cortexm_mcu_image_load (elf_result flat_result : Int)
    (kernel_filename : String) (flash_size_kb : Nat) :
    List LoadAttempt × Except String Unit :=
  if elf_result < 0 then
    if flat_result < 0 then
      ([LoadAttempt.elfFile kernel_filename,
        LoadAttempt.flatBinary kernel_filename 0 (flash_size_kb * 1024)],
       Except.error ("Could not load image '" ++ kernel_filename ++ "'"))
    else
      ([LoadAttempt.elfFile kernel_filename,
        LoadAttempt.flatBinary kernel_filename 0 (flash_size_kb * 1024)],
       Except.ok ())
  else
    ([LoadAttempt.elfFile kernel_filename], Except.ok ())

/-- The fields of `CortexMState` whose values are decided by
`cortexm_mcu_realize`: the resolved capabilities, the stored `cpu_model`
identifier and the resolved sizes and interrupt-line count. -/
structure CortexMState where
  capabilities : CortexMCapabilities
  cpu_model : String
  sram_size_kb : Nat
  flash_size_kb : Nat
  num_irq : Nat
deriving DecidableEq, Repr

/-- `cortexm_mcu_realize` (lines 106-368): resolve the `--cpu` override,
hard-wire the per-model flags, resolve SRAM/Flash sizes and the
interrupt-line count, require an image unless qtest or gdb mode is active
(lines 346-349), and load the image (via `cortexm_mcu_image_load`, whose
external loaders are the oracle parameters `elf_result`/`flat_result`).
A fatal `error_report`+`exit(1)` path is modelled as `Except.error`, so no
chip state is returned on those paths. -/
def cortexm_mcu_realize (cpu_model_arg : Option String)
    (ram_size_arg_kb flash_size_arg_kb : Nat)
    (kernel_filename : Option String) (qtest_enabled with_gdb : Bool)
    (elf_result flat_result : Int)
    (caps0 : CortexMCapabilities) : Except String CortexMState :=
  match resolveCapabilities cpu_model_arg caps0 with
  | Except.error e => Except.error e
  | Except.ok caps =>
      let cpu_model := modelCpuModel caps.cortexm_model
      let sram_size_kb := resolveSramSizeKb ram_size_arg_kb caps.sram_size_kb
      let flash_size_kb := resolveFlashSizeKb flash_size_arg_kb caps.flash_size_kb
      let num_irq := resolveNumIrq caps.num_irq (modelMaxNumIrq caps.cortexm_model)
      match kernel_filename with
      | none =>
          if qtest_enabled = false ∧ with_gdb = false then
            Except.error "Guest image must be specified (using -kernel)"
          else
            Except.ok { capabilities := caps, cpu_model := cpu_model,
                        sram_size_kb := sram_size_kb,
                        flash_size_kb := flash_size_kb, num_irq := num_irq }
      | some path =>
          match (cortexm_mcu_image_load elf_result flat_result path flash_size_kb).2 with
          | Except.error e => Except.error e
          | Except.ok _ =>
              Except.ok { capabilities := caps, cpu_model := cpu_model,
                          sram_size_kb := sram_size_kb,
                          flash_size_kb := flash_size_kb, num_irq := num_irq }

/-- Kinds of memory regions: RAM-backed storage (`memory_region_init_ram`,
possibly made read-only), an alias forwarding to a named backing region at a
byte offset, or a bit-band window whose words map to the bits of the window
starting at `source_base`. -/
inductive RegionKind
  | ram
  | aliasOf (target : String) (offset : Nat)
  | bitband (source_base : Nat)
deriving DecidableEq, Repr

/-- A placed memory region: name, base address, byte length, kind,
read-only flag. -/
structure Region where
  name : String
  base : Nat
  size : Nat
  kind : RegionKind
  readonly : Bool
deriving DecidableEq, Repr

/-- `#define BITBAND_OFFSET (0x02000000)` (hw/arm/cortexm-mcu.c line 53). -/
def BITBAND_OFFSET : Nat := 0x02000000

/-- `cortexm_bitband_init` (lines 55-65): align the address down to a
multiple of 32 MiB (`address &= ~(BITBAND_OFFSET - 1)`, i.e. discard the
remainder modulo `BITBAND_OFFSET`) and map the bit-band device at
`aligned + BITBAND_OFFSET`.  The device's window size (a 32 MiB window, one
word per bit of the 1 MiB source window) comes from the spec, since the
`TYPE_BITBAND` device body is outside these sources. -/
def cortexm_bitband_init (address : Nat) : Region :=
  { name := "bitband"
    base := address - address % BITBAND_OFFSET + BITBAND_OFFSET
    size := BITBAND_OFFSET
    kind := RegionKind.bitband (address - address % BITBAND_OFFSET)
    readonly := false }

/-- `cortexm_mcu_memory_regions_create` (lines 370-405), with sizes in KiB:
a read-only RAM-backed Flash region at 0, the SRAM region at 0x20000000,
the bit-band device over the SRAM window, and the 4 KiB "hack" page at
0xFFFFF000 (the top of the 32-bit address space). -/
def cortexm_mcu_memory_regions_create (flash_size_kb sram_size_kb : Nat) :
    List Region :=
  [ { name := "cortexm-mem-flash", base := 0, size := flash_size_kb * 1024,
      kind := RegionKind.ram, readonly := true },
    { name := "cortexm-mem-sram", base := 0x20000000, size := sram_size_kb * 1024,
      kind := RegionKind.ram, readonly := false },
    cortexm_bitband_init 0x20000000,
    { name := "cortexm-mem-hack", base := 0xFFFFF000, size := 0x1000,
      kind := RegionKind.ram, readonly := false } ]

/-- STM32 families (`stm32_family_t`, the cases of the family switch in
`stm32_mcu_realize_callback`, lines 105-126). -/
inductive STM32Family
  | f0
  | f1
  | f2
  | f3
  | f4
  | l1
deriving DecidableEq, Repr

/-- Modelled from the spec: `STM32Capabilities` is declared in
`hw/cortexm/stm32/mcu.h`, which is not among the sources.  The fields below
are the ones `stm32_mcu_realize_callback` reads (family, oscillator
frequencies, `has_periph_bitband`, `has_pwr`, `has_syscfg`, the GPIO A-K and
USART/UART presence flags); `has_exti` is taken from the spec's
peripheral-presence flag list (the realize callback never consults it). -/
structure STM32Capabilities where
  family : STM32Family
  hsi_freq_hz : Nat
  lsi_freq_hz : Nat
  has_periph_bitband : Bool
  has_pwr : Bool
  has_syscfg : Bool
  has_exti : Bool
  has_gpioa : Bool
  has_gpiob : Bool
  has_gpioc : Bool
  has_gpiod : Bool
  has_gpioe : Bool
  has_gpiof : Bool
  has_gpiog : Bool
  has_gpioh : Bool
  has_gpioi : Bool
  has_gpioj : Bool
  has_gpiok : Bool
  has_usart1 : Bool
  has_usart2 : Bool
  has_usart3 : Bool
  has_uart4 : Bool
  has_uart5 : Bool
  has_usart6 : Bool
deriving DecidableEq, Repr

/-- `STM32_MAX_GPIO` (header constant): the GPIO ports run A..K, 11 banks. -/
def STM32_MAX_GPIO : Nat := 11

/-- `STM32_MAX_USART` (header constant): USART1-3, UART4-5, USART6. -/
def STM32_MAX_USART : Nat := 6

/-- The peripheral-handle fields of `STM32MCUState` that
`stm32_mcu_realize_callback` fills in (`true` = a device handle was stored),
plus the `num_gpio` tally. -/
structure STM32MCUState where
  rcc : Bool
  flash : Bool
  pwr : Bool
  syscfg : Bool
  exti : Bool
  gpioa : Bool
  gpiob : Bool
  gpioc : Bool
  gpiod : Bool
  gpioe : Bool
  gpiof : Bool
  gpiog : Bool
  gpioh : Bool
  gpioi : Bool
  gpioj : Bool
  gpiok : Bool
  usart1 : Bool
  usart2 : Bool
  usart3 : Bool
  uart4 : Bool
  uart5 : Bool
  usart6 : Bool
  num_gpio : Nat
deriving DecidableEq, Repr

/-- The GPIO capability flags as a list indexed by port letter
(A = 0 .. K = 10), in the order of the realize callback's blocks. -/
def gpioFlags (cap : STM32Capabilities) : List Bool :=
  [cap.has_gpioa, cap.has_gpiob, cap.has_gpioc, cap.has_gpiod, cap.has_gpioe,
   cap.has_gpiof, cap.has_gpiog, cap.has_gpioh, cap.has_gpioi, cap.has_gpioj,
   cap.has_gpiok]

/-- The USART/UART capability flags as a list indexed like
`stm32_usart_index_t` (USART1 = 0, USART2 = 1, USART3 = 2, UART4 = 3,
UART5 = 4, USART6 = 5). -/
def usartFlags (cap : STM32Capabilities) : List Bool :=
  [cap.has_usart1, cap.has_usart2, cap.has_usart3, cap.has_uart4,
   cap.has_uart5, cap.has_usart6]

/-- The `state->gpio[i]` handle slots of an `STM32MCUState`, as a list
indexed by port letter. -/
def gpioPresents (s : STM32MCUState) : List Bool :=
  [s.gpioa, s.gpiob, s.gpioc, s.gpiod, s.gpioe, s.gpiof, s.gpiog, s.gpioh,
   s.gpioi, s.gpioj, s.gpiok]

/-- `state->gpio[i] != NULL`. -/
def gpioPresent (s : STM32MCUState) (i : Nat) : Bool :=
  (gpioPresents s).getD i false

/-- The `state->usart[i]` handle slots of an `STM32MCUState`. -/
def usartPresents (s : STM32MCUState) : List Bool :=
  [s.usart1, s.usart2, s.usart3, s.uart4, s.uart5, s.usart6]

/-- `state->usart[i] != NULL`. -/
def usartPresent (s : STM32MCUState) (i : Nat) : Bool :=
  (usartPresents s).getD i false

/-- The `state->num_gpio` bookkeeping of `stm32_mcu_realize_callback`
(lines 243-309): start at 0 and, in each GPIO block taken in letter order,
overwrite it with that bank's index + 1, so the final value is decided by
the highest-lettered enabled bank. -/
def stm32_num_gpio (cap : STM32Capabilities) : Nat :=
  let n := 0
  let n := if cap.has_gpioa then 1 else n
  let n := if cap.has_gpiob then 2 else n
  let n := if cap.has_gpioc then 3 else n
  let n := if cap.has_gpiod then 4 else n
  let n := if cap.has_gpioe then 5 else n
  let n := if cap.has_gpiof then 6 else n
  let n := if cap.has_gpiog then 7 else n
  let n := if cap.has_gpioh then 8 else n
  let n := if cap.has_gpioi then 9 else n
  let n := if cap.has_gpioj then 10 else n
  let n := if cap.has_gpiok then 11 else n
  n

/-- The peripheral-construction portion of `stm32_mcu_realize_callback`
(lines 173-343): RCC, FLASH and EXTI are created unconditionally; PWR and
SYSCFG only behind their flags; each GPIO bank and each USART/UART behind
its own flag, with `num_gpio` maintained as in `stm32_num_gpio`. -/
def stm32_mcu_realize_callback (cap : STM32Capabilities) : STM32MCUState :=
  { rcc := true
    flash := true
    pwr := cap.has_pwr
    syscfg := cap.has_syscfg
    exti := true
    gpioa := cap.has_gpioa
    gpiob := cap.has_gpiob
    gpioc := cap.has_gpioc
    gpiod := cap.has_gpiod
    gpioe := cap.has_gpioe
    gpiof := cap.has_gpiof
    gpiog := cap.has_gpiog
    gpioh := cap.has_gpioh
    gpioi := cap.has_gpioi
    gpioj := cap.has_gpioj
    gpiok := cap.has_gpiok
    usart1 := cap.has_usart1
    usart2 := cap.has_usart2
    usart3 := cap.has_usart3
    uart4 := cap.has_uart4
    uart5 := cap.has_uart5
    usart6 := cap.has_usart6
    num_gpio := stm32_num_gpio cap }

/-- The memory regions in place after `stm32_mcu_realize_callback` ran: the
parent realize created the generic regions through the
`memory_regions_create` extension point (the STM32 override, lines 378-386,
just delegates to the generic composer), and the callback then adds the
read-only Flash alias at 0x08000000 (lines 133-163) and, only when
`has_periph_bitband` is set, the peripheral bit-band window over 0x40000000
(lines 165-171; its address arithmetic is the 32 MiB-align-and-offset of
`cortexm_bitband_init`, the device itself living in a header outside these
sources). -/
def stm32_regions (cap : STM32Capabilities) (flash_size_kb sram_size_kb : Nat) :
    List Region :=
  cortexm_mcu_memory_regions_create flash_size_kb sram_size_kb ++
  [ { name := "mem-flash-alias", base := 0x08000000, size := flash_size_kb * 1024,
      kind := RegionKind.aliasOf "cortexm-mem-flash" 0, readonly := true } ] ++
  (if cap.has_periph_bitband then
    [ { cortexm_bitband_init 0x40000000 with name := "periph-bitband" } ]
  else [])

/-- One observable step of the reset cascade: `rom_reset` (re-materialize the
boot image), a `device_reset` on a named peripheral, or `cpu_reset` on the
processor core. -/
inductive ResetEvent
  | imageRemat
  | rccReset
  | flashReset
  | gpioReset (i : Nat)
  | usartReset (i : Nat)
  | coreReset
deriving DecidableEq, Repr

/-- The GPIO loop of `stm32_mcu_reset_callback` (lines 361-366):
`for (i = 0; i < STM32_MAX_GPIO; ++i) if (state->gpio[i]) device_reset`. -/
def stm32_gpio_resets (s : STM32MCUState) : List ResetEvent :=
  (((List.range STM32_MAX_GPIO).filter fun i => gpioPresent s i).map
    ResetEvent.gpioReset)

/-- The USART loop of `stm32_mcu_reset_callback` (lines 368-372). -/
def stm32_usart_resets (s : STM32MCUState) : List ResetEvent :=
  (((List.range STM32_MAX_USART).filter fun i => usartPresent s i).map
    ResetEvent.usartReset)

/-- `stm32_mcu_reset_callback` (lines 345-373): parent reset first (the
Cortex-M parent class installs no reset handler in these sources, so it
contributes no event), then RCC, then FLASH, then the GPIO banks in
ascending letter order, then the USART/UART ports in ascending index
order. -/
def stm32_mcu_reset_callback (s : STM32MCUState) : List ResetEvent :=
  (if s.rcc then [ResetEvent.rccReset] else []) ++
  (if s.flash then [ResetEvent.flashReset] else []) ++
  stm32_gpio_resets s ++
  stm32_usart_resets s

/-- `cortexm_reset` (lines 532-549): `rom_reset` (copy the image back into
memory) immediately followed by `cpu_reset` on the core, with nothing in
between. -/
def cortexm_reset : List ResetEvent :=
  [ResetEvent.imageRemat, ResetEvent.coreReset]

/-- Modelled from the spec: the order in which QEMU's reset machinery invokes
the device-class reset callback versus the `qemu_register_reset` handler is
decided outside these sources.  The spec requires the processor core to be
reset last, "so that its boot vector fetch sees already-reset memory-mapped
peripherals", which places the registered `cortexm_reset` handler after the
device callback. -/
def stm32_full_reset (s : STM32MCUState) : List ResetEvent :=
  stm32_mcu_reset_callback s ++ cortexm_reset

/-- Rank of a reset event in the order asserted by the sources: RCC, FLASH,
GPIO banks by letter, serial ports by index, then image re-materialization
immediately before the core reset. -/
def resetRank : ResetEvent → Nat
  | ResetEvent.rccReset => 0
  | ResetEvent.flashReset => 1
  | ResetEvent.gpioReset i => 2 + i
  | ResetEvent.usartReset i => 13 + i
  | ResetEvent.imageRemat => 19
  | ResetEvent.coreReset => 20

/-- Spec-side helper: round `n` up to the next multiple of 32. -/
def align32up (n : Nat) : Nat := (n + 31) / 32 * 32

/-- Spec-side helper: one plus the index of the highest `true` entry of the
list, or 0 when every entry is `false` ("one plus the highest-lettered
enabled bank's index"). -/
def highestEnabledSucc (l : List Bool) : Nat :=
  ((List.range l.length).filter fun i => l.getD i false).foldr
    (fun i acc => max (i + 1) acc) 0

/-- A Cortex-M3 descriptor whose interrupt-line default equals the M3
hardware ceiling of 240. -/
def m3Caps240 : CortexMCapabilities :=
  { cortexm_model := CortexMModel.M3, has_mpu := true, has_fpu := false,
    fpu_type := CortexMFpuType.noFpu, sram_size_kb := 64, flash_size_kb := 256,
    num_irq := 240, has_itm := false }

/-- A Cortex-M4 descriptor that claims an MPU. -/
def m4CapsMpu : CortexMCapabilities :=
  { cortexm_model := CortexMModel.M4, has_mpu := true, has_fpu := false,
    fpu_type := CortexMFpuType.noFpu, sram_size_kb := 16, flash_size_kb := 64,
    num_irq := 0, has_itm := false }

/-- A Cortex-M4F descriptor. -/
def m4fCaps : CortexMCapabilities :=
  { cortexm_model := CortexMModel.M4F, has_mpu := false, has_fpu := false,
    fpu_type := CortexMFpuType.noFpu, sram_size_kb := 128, flash_size_kb := 1024,
    num_irq := 0, has_itm := false }

/-- An STM32 descriptor with every optional-peripheral flag cleared. -/
def stm32CapsMin : STM32Capabilities :=
  { family := STM32Family.f1, hsi_freq_hz := 8000000, lsi_freq_hz := 40000,
    has_periph_bitband := false, has_pwr := false, has_syscfg := false,
    has_exti := false,
    has_gpioa := false, has_gpiob := false, has_gpioc := false,
    has_gpiod := false, has_gpioe := false, has_gpiof := false,
    has_gpiog := false, has_gpioh := false, has_gpioi := false,
    has_gpioj := false, has_gpiok := false,
    has_usart1 := false, has_usart2 := false, has_usart3 := false,
    has_uart4 := false, has_uart5 := false, has_usart6 := false }

/-- C1 counterexample: a Cortex-M3 descriptor with a 240-line default (the
M3 ceiling itself) realizes with `num_irq = 256`, which exceeds the 240
ceiling: the clamp happens before the round-up to a multiple of 32, so the
round-up can push the stored count past the ceiling. -/
theorem num_irq_exceeds_ceiling_on_m3 :
    (cortexm_mcu_realize none 0 0 none true false 0 0 m3Caps240).toOption.map
      (fun st => st.num_irq) = some 256 ∧
    modelMaxNumIrq CortexMModel.M3 = 240 ∧
    ¬(256 ≤ 240) := by
  decide

/-- C1 (amended): the resolved interrupt-line count is always a multiple of
32; it equals the descriptor default (`DEFAULT_NUM_IRQ` when the default is
0) clamped to the core family's ceiling and then rounded up to the next
multiple of 32, so it is bounded by the ceiling rounded up to the next
multiple of 32 (512 in general, 256 for Cortex-M3), not by the ceiling
itself. -/
theorem num_irq_multiple_of_32_and_bounded (model : CortexMModel) (capNum : Nat) :
    resolveNumIrq capNum (modelMaxNumIrq model) % 32 = 0 ∧
    resolveNumIrq capNum (modelMaxNumIrq model) ≤ align32up (modelMaxNumIrq model) ∧
    resolveNumIrq capNum (modelMaxNumIrq model) =
      align32up (min (if capNum = 0 then DEFAULT_NUM_IRQ else capNum)
        (modelMaxNumIrq model)) := by
  cases model <;>
  · simp only [resolveNumIrq, modelMaxNumIrq, align32up, DEFAULT_NUM_IRQ]
    refine ⟨?_, ?_, ?_⟩ <;> (repeat' split) <;> omega

/-- C6: a numeric RAM or Flash override replaces the descriptor default only
when non-zero (a zero override leaves the default in effect), the resolved
SRAM size is clamped to 32768 KiB (32 MiB), and a 64 MiB (65536 KiB) RAM
override resolves to exactly 32 MiB. -/
theorem ram_flash_override_resolution (ramArg capRam flashArg capFlash : Nat) :
    resolveSramSizeKb ramArg capRam ≤ 32768 ∧
    resolveSramSizeKb ramArg capRam =
      min (if ramArg = 0 then capRam else ramArg) 32768 ∧
    resolveFlashSizeKb flashArg capFlash =
      (if flashArg = 0 then capFlash else flashArg) ∧
    resolveSramSizeKb (64 * 1024) capRam = 32 * 1024 := by
  refine ⟨?_, ?_, ?_, ?_⟩ <;>
    simp only [resolveSramSizeKb, resolveFlashSizeKb] <;>
    (repeat' split) <;> omega

/-- C7: the generic composer places a read-only Flash-backed region at
address 0 sized to the resolved Flash size, a RAM region at 0x20000000 sized
to the resolved RAM size, and a 4 KiB guard page at 0xFFFFF000 (the top of
the 32-bit address space); with Flash = 64 KiB and SRAM = 20 KiB the Flash
region is [0x0, 0x10000) read-only and the SRAM region is
[0x20000000, 0x20005000). -/
theorem memory_regions_layout (f s : Nat) :
    ({ name := "cortexm-mem-flash", base := 0, size := f * 1024,
       kind := RegionKind.ram, readonly := true } : Region)
      ∈ cortexm_mcu_memory_regions_create f s ∧
    ({ name := "cortexm-mem-sram", base := 0x20000000, size := s * 1024,
       kind := RegionKind.ram, readonly := false } : Region)
      ∈ cortexm_mcu_memory_regions_create f s ∧
    ({ name := "cortexm-mem-hack", base := 0xFFFFF000, size := 0x1000,
       kind := RegionKind.ram, readonly := false } : Region)
      ∈ cortexm_mcu_memory_regions_create f s ∧
    0xFFFFF000 + 0x1000 = 2 ^ 32 ∧
    ({ name := "cortexm-mem-flash", base := 0, size := 0x10000,
       kind := RegionKind.ram, readonly := true } : Region)
      ∈ cortexm_mcu_memory_regions_create 64 20 ∧
    ({ name := "cortexm-mem-sram", base := 0x20000000, size := 0x5000,
       kind := RegionKind.ram, readonly := false } : Region)
      ∈ cortexm_mcu_memory_regions_create 64 20 ∧
    0x20000000 + 0x5000 = 0x20005000 := by
  refine ⟨?_, ?_, ?_, by norm_num, by decide, by decide, by norm_num⟩ <;>
    simp [cortexm_mcu_memory_regions_create]

/-- C10: the identifier stored for Cortex-M4F and passed to the CPU factory
is `"cortex-mf4"`, which differs from the accepted override name
`"cortex-m4f"` (and is itself rejected as an override); for every other
model the stored identifier is exactly its accepted override name. -/
theorem cpu_model_string_m4f_mismatch (c : CortexMCapabilities) :
    modelCpuModel CortexMModel.M4F = "cortex-mf4" ∧
    "cortex-mf4" ≠ "cortex-m4f" ∧
    cortexm_cpu_model_override "cortex-m4f" c =
      Except.ok { c with cortexm_model := CortexMModel.M4F, has_mpu := true } ∧
    cortexm_cpu_model_override "cortex-mf4" c =
      Except.error ("Illegal --cpu " ++ "cortex-mf4" ++ ", only cortex-m* supported.") ∧
    cortexm_cpu_model_override (modelCpuModel CortexMModel.M0) c =
      Except.ok { c with cortexm_model := CortexMModel.M0 } ∧
    cortexm_cpu_model_override (modelCpuModel CortexMModel.M0PLUS) c =
      Except.ok { c with cortexm_model := CortexMModel.M0PLUS } ∧
    cortexm_cpu_model_override (modelCpuModel CortexMModel.M1) c =
      Except.ok { c with cortexm_model := CortexMModel.M1 } ∧
    cortexm_cpu_model_override (modelCpuModel CortexMModel.M3) c =
      Except.ok { c with cortexm_model := CortexMModel.M3 } ∧
    cortexm_cpu_model_override (modelCpuModel CortexMModel.M4) c =
      Except.ok { c with cortexm_model := CortexMModel.M4, has_mpu := false } ∧
    cortexm_cpu_model_override (modelCpuModel CortexMModel.M7) c =
      Except.ok { c with cortexm_model := CortexMModel.M7, has_mpu := false } ∧
    cortexm_cpu_model_override (modelCpuModel CortexMModel.M7F) c =
      Except.ok { c with cortexm_model := CortexMModel.M7F, has_mpu := true } ∧
    (cortexm_mcu_realize none 0 0 none true false 0 0 m4fCaps).toOption.map
      (fun st => st.cpu_model) = some "cortex-mf4" := by
  exact ⟨rfl, by decide, rfl, rfl, rfl, rfl, rfl, rfl, rfl, rfl, rfl, by decide⟩

/-- Helper for the GPIO tally: on an arbitrary flag assignment the
sequential overwrite chain yields one plus the highest enabled index. -/
theorem num_gpio_chain_eq_highest (a b c d e f g h i j k : Bool) :
    stm32_num_gpio { stm32CapsMin with
      has_gpioa := a, has_gpiob := b, has_gpioc := c, has_gpiod := d,
      has_gpioe := e, has_gpiof := f, has_gpiog := g, has_gpioh := h,
      has_gpioi := i, has_gpioj := j, has_gpiok := k } =
    highestEnabledSucc [a, b, c, d, e, f, g, h, i, j, k] := by
  revert a b c d e f g h i j k
  decide

/-- C8: the chip instance's GPIO-bank tally equals one plus the index of the
highest-lettered enabled bank (0 when no bank is enabled), not the number of
enabled banks; with only GPIO A and C enabled the tally is 3. -/
theorem gpio_tally_highest_enabled (cap : STM32Capabilities) :
    (stm32_mcu_realize_callback cap).num_gpio =
      highestEnabledSucc (gpioFlags cap) ∧
    (stm32_mcu_realize_callback { stm32CapsMin with
      has_gpioa := true, has_gpioc := true }).num_gpio = 3 := by
  constructor
  · exact num_gpio_chain_eq_highest cap.has_gpioa cap.has_gpiob cap.has_gpioc
      cap.has_gpiod cap.has_gpioe cap.has_gpiof cap.has_gpiog cap.has_gpioh
      cap.has_gpioi cap.has_gpioj cap.has_gpiok
  · decide

/-- C2 counterexample: for a descriptor whose EXTI flag is cleared, the
realize callback still stores an EXTI handle (the EXTI block is
unconditional), so "EXTI is created only when its flag is set" is false. -/
theorem exti_created_without_flag :
    stm32CapsMin.has_exti = false ∧
    (stm32_mcu_realize_callback stm32CapsMin).exti = true := by
  decide

/-- C2 (amended): after construction, PWR, SYSCFG, each GPIO bank and each
USART/UART are present in the peripheral table exactly when their capability
flags are set, while RCC, FLASH and EXTI are always present — EXTI
regardless of its flag. -/
theorem peripheral_presence_iff_flag_except_exti (cap : STM32Capabilities) :
    (stm32_mcu_realize_callback cap).pwr = cap.has_pwr ∧
    (stm32_mcu_realize_callback cap).syscfg = cap.has_syscfg ∧
    (stm32_mcu_realize_callback cap).rcc = true ∧
    (stm32_mcu_realize_callback cap).flash = true ∧
    (stm32_mcu_realize_callback cap).exti = true ∧
    gpioPresents (stm32_mcu_realize_callback cap) = gpioFlags cap ∧
    usartPresents (stm32_mcu_realize_callback cap) = usartFlags cap := by
  exact ⟨rfl, rfl, rfl, rfl, rfl, rfl, rfl⟩

/-- C3 counterexample: for a descriptor that does not request bit-banding
(`has_periph_bitband = false`), the composed address space still contains
the bit-band shadow over the SRAM window at 0x20000000, mapped at
0x22000000: the generic composer creates it unconditionally. -/
theorem sram_bitband_created_without_request :
    stm32CapsMin.has_periph_bitband = false ∧
    cortexm_bitband_init 0x20000000 ∈ stm32_regions stm32CapsMin 64 20 ∧
    (cortexm_bitband_init 0x20000000).kind = RegionKind.bitband 0x20000000 ∧
    (cortexm_bitband_init 0x20000000).base = 0x22000000 := by
  decide

/-- C3 (amended): the generic composer always creates the bit-band shadow
over the SRAM window, for every descriptor; the descriptor's bit-band flag
conditions only the vendor layer's peripheral bit-band window over
0x40000000. -/
theorem bitband_regions_characterization (cap : STM32Capabilities)
    (f s : Nat) :
    cortexm_bitband_init 0x20000000 ∈ stm32_regions cap f s ∧
    (({ cortexm_bitband_init 0x40000000 with name := "periph-bitband" } : Region)
        ∈ stm32_regions cap f s ↔ cap.has_periph_bitband = true) := by
  cases hbb : cap.has_periph_bitband <;>
    simp [stm32_regions, cortexm_mcu_memory_regions_create, hbb,
      cortexm_bitband_init, Region.mk.injEq]

/-- The FPU presence each core model's switch case forces. -/
def modelHasFpu : CortexMModel → Bool
  | CortexMModel.M4F => true
  | CortexMModel.M7F => true
  | _ => false

/-- The FPU variant each core model's switch case forces. -/
def modelFpuType : CortexMModel → CortexMFpuType
  | CortexMModel.M4F => CortexMFpuType.fpv4SpD16
  | CortexMModel.M7F => CortexMFpuType.fpv5SpD16
  | _ => CortexMFpuType.noFpu

/-- Helper: the hard-wiring switch forces `has_fpu` and `fpu_type` as a
function of the model alone and leaves the model unchanged. -/
theorem hardWireCaps_fpu (c : CortexMCapabilities) :
    (hardWireCaps c).has_fpu = modelHasFpu c.cortexm_model ∧
    (hardWireCaps c).fpu_type = modelFpuType c.cortexm_model ∧
    (hardWireCaps c).cortexm_model = c.cortexm_model := by
  cases hm : c.cortexm_model <;>
    simp [hardWireCaps, hm, modelHasFpu, modelFpuType]

/-- Helper: every successfully resolved descriptor is the image of some
descriptor under the hard-wiring switch. -/
theorem resolveCapabilities_ok_shape (a : Option String)
    (c r : CortexMCapabilities)
    (h : resolveCapabilities a c = Except.ok r) :
    ∃ c0, r = hardWireCaps c0 := by
  cases a with
  | none =>
      refine ⟨c, ?_⟩
      simp only [resolveCapabilities] at h
      injection h with h
      exact h.symm
  | some s =>
      cases hov : cortexm_cpu_model_override s c with
      | ok c2 =>
          refine ⟨c2, ?_⟩
          simp only [resolveCapabilities, hov] at h
          injection h with h
          exact h.symm
      | error e =>
          simp only [resolveCapabilities, hov] at h
          exact absurd h (by simp)

/-- C4 counterexample: two constructions that both resolve to Cortex-M4 —
one from a descriptor declaring an MPU with no override string, one from the
same descriptor with the `"cortex-m4"` override string — end up with
different `has_mpu` values (true vs false): the switch hard-wires the MPU
flag only in the M0/M0+/M1 cases, while the override-string path forces it
for m4/m4f/m7/m7f. -/
theorem mpu_differs_same_model :
    (resolveCapabilities none m4CapsMpu).toOption.map
      (fun r => r.cortexm_model) = some CortexMModel.M4 ∧
    (resolveCapabilities (some "cortex-m4") m4CapsMpu).toOption.map
      (fun r => r.cortexm_model) = some CortexMModel.M4 ∧
    (resolveCapabilities none m4CapsMpu).toOption.map
      (fun r => r.has_mpu) = some true ∧
    (resolveCapabilities (some "cortex-m4") m4CapsMpu).toOption.map
      (fun r => r.has_mpu) = some false := by
  decide

/-- C4 (amended): FPU presence and FPU variant are hard-wired by the core
model — any two successful resolutions yielding the same model agree on
`has_fpu` and `fpu_type` — but MPU presence is not: it is forced only by the
M0/M0+/M1 switch cases and by the override-string path, and otherwise
retains the descriptor's value. -/
theorem fpu_hardwired_by_model (a1 a2 : Option String)
    (c1 c2 r1 r2 : CortexMCapabilities)
    (h1 : resolveCapabilities a1 c1 = Except.ok r1)
    (h2 : resolveCapabilities a2 c2 = Except.ok r2)
    (hm : r1.cortexm_model = r2.cortexm_model) :
    r1.has_fpu = r2.has_fpu ∧ r1.fpu_type = r2.fpu_type := by
  obtain ⟨d1, rfl⟩ := resolveCapabilities_ok_shape a1 c1 r1 h1
  obtain ⟨d2, rfl⟩ := resolveCapabilities_ok_shape a2 c2 r2 h2
  have e1 := hardWireCaps_fpu d1
  have e2 := hardWireCaps_fpu d2
  have hm2 : d1.cortexm_model = d2.cortexm_model := by
    rw [← e1.2.2, ← e2.2.2]
    exact hm
  exact ⟨by rw [e1.1, e2.1, hm2], by rw [e1.2.1, e2.2.1, hm2]⟩

/-- Witness for `fpu_hardwired_by_model` at two concrete resolutions to
Cortex-M4. -/
theorem fpu_hardwired_by_model_witness :
    resolveCapabilities none m4CapsMpu = Except.ok (hardWireCaps m4CapsMpu) ∧
    ((hardWireCaps m4CapsMpu).has_fpu =
        (hardWireCaps { m4CapsMpu with has_mpu := false }).has_fpu ∧
      (hardWireCaps m4CapsMpu).fpu_type =
        (hardWireCaps { m4CapsMpu with has_mpu := false }).fpu_type) := by
  refine ⟨rfl, fpu_hardwired_by_model none (some "cortex-m4")
    m4CapsMpu m4CapsMpu (hardWireCaps m4CapsMpu)
    (hardWireCaps { m4CapsMpu with has_mpu := false }) rfl ?_ ?_⟩
  · rfl
  · rfl

/-- C9: the image loader first attempts an ELF parse; when that fails it
falls back to a flat-binary load at address 0 bounded by the resolved Flash
size; when both fail, the result is a fatal error whose message contains the
path, construction as a whole fails, and no chip state is returned. -/
theorem image_load_fallback_and_fatal (elf_result flat_result : Int)
    (path : String) (flash_size_kb : Nat)
    (helf : elf_result < 0) (hflat : flat_result < 0) :
    (cortexm_mcu_image_load elf_result flat_result path flash_size_kb).1 =
      [LoadAttempt.elfFile path,
       LoadAttempt.flatBinary path 0 (flash_size_kb * 1024)] ∧
    (cortexm_mcu_image_load elf_result flat_result path flash_size_kb).2 =
      Except.error ("Could not load image '" ++ path ++ "'") ∧
    (∃ front back, ("Could not load image '" ++ path ++ "'" : String) =
      front ++ path ++ back) ∧
    (∀ (e2 f2 : Int) (p2 : String) (k2 : Nat),
      (cortexm_mcu_image_load e2 f2 p2 k2).1.head? =
        some (LoadAttempt.elfFile p2)) ∧
    (∀ (ramArg flashArg : Nat) (qt gdb : Bool) (caps : CortexMCapabilities),
      cortexm_mcu_realize none ramArg flashArg (some path) qt gdb
        elf_result flat_result caps =
        Except.error ("Could not load image '" ++ path ++ "'")) := by
  refine ⟨?_, ?_, ⟨"Could not load image '", "'", by simp [String.append_assoc]⟩,
    ?_, ?_⟩
  · simp [cortexm_mcu_image_load, if_pos helf, if_pos hflat]
  · simp [cortexm_mcu_image_load, if_pos helf, if_pos hflat]
  · intro e2 f2 p2 k2
    unfold cortexm_mcu_image_load
    split_ifs <;> rfl
  · intro ramArg flashArg qt gdb caps
    simp [cortexm_mcu_realize, resolveCapabilities, cortexm_mcu_image_load,
      if_pos helf, if_pos hflat]

/-- Witness for `image_load_fallback_and_fatal` at concrete failing loader
results. -/
theorem image_load_fallback_and_fatal_witness :
    ((-1 : Int) < 0) ∧
    (cortexm_mcu_image_load (-1) (-1) "missing.elf" 64).1 =
      [LoadAttempt.elfFile "missing.elf",
       LoadAttempt.flatBinary "missing.elf" 0 (64 * 1024)] := by
  exact ⟨by decide,
    (image_load_fallback_and_fatal (-1) (-1) "missing.elf" 64
      (by decide) (by decide)).1⟩

/-- Helper: the GPIO reset loop produces events in strictly increasing rank
order (ascending letter order). -/
theorem gpio_resets_pairwise (s : STM32MCUState) :
    List.Pairwise (fun a b => resetRank a < resetRank b) (stm32_gpio_resets s) := by
  unfold stm32_gpio_resets
  rw [List.pairwise_map]
  refine List.Pairwise.imp ?_ ((List.pairwise_lt_range _).filter _)
  intro a b hab
  simpa [resetRank] using hab

/-- Helper: ranks of GPIO reset events lie in [2, 12]. -/
theorem gpio_resets_rank_bounds (s : STM32MCUState) :
    ∀ a ∈ stm32_gpio_resets s, 2 ≤ resetRank a ∧ resetRank a ≤ 12 := by
  intro a ha
  unfold stm32_gpio_resets at ha
  simp only [List.mem_map, List.mem_filter, List.mem_range] at ha
  obtain ⟨i, ⟨hi, _⟩, rfl⟩ := ha
  simp only [resetRank, STM32_MAX_GPIO] at hi ⊢
  omega

/-- Helper: the USART reset loop produces events in strictly increasing rank
order (ascending instance order). -/
theorem usart_resets_pairwise (s : STM32MCUState) :
    List.Pairwise (fun a b => resetRank a < resetRank b) (stm32_usart_resets s) := by
  unfold stm32_usart_resets
  rw [List.pairwise_map]
  refine List.Pairwise.imp ?_ ((List.pairwise_lt_range _).filter _)
  intro a b hab
  simpa [resetRank] using hab

/-- Helper: ranks of USART reset events lie in [13, 18]. -/
theorem usart_resets_rank_bounds (s : STM32MCUState) :
    ∀ a ∈ stm32_usart_resets s, 13 ≤ resetRank a ∧ resetRank a ≤ 18 := by
  intro a ha
  unfold stm32_usart_resets at ha
  simp only [List.mem_map, List.mem_filter, List.mem_range] at ha
  obtain ⟨i, ⟨hi, _⟩, rfl⟩ := ha
  simp only [resetRank, STM32_MAX_USART] at hi ⊢
  omega

/-- Helper: gluing two rank-sorted event lists separated by a threshold. -/
theorem pairwise_rank_append (l1 l2 : List ResetEvent) (m : Nat)
    (h1 : List.Pairwise (fun a b => resetRank a < resetRank b) l1)
    (h2 : List.Pairwise (fun a b => resetRank a < resetRank b) l2)
    (hm1 : ∀ a ∈ l1, resetRank a ≤ m)
    (hm2 : ∀ b ∈ l2, m < resetRank b) :
    List.Pairwise (fun a b => resetRank a < resetRank b) (l1 ++ l2) :=
  List.pairwise_append.mpr ⟨h1, h2, fun a ha b hb =>
    lt_of_le_of_lt (hm1 a ha) (hm2 b hb)⟩

/-- C5 counterexample: with GPIO A and USART1 enabled, the claimed order —
image re-materialization first, then RCC, FLASH, GPIO, USART, core last —
is produced neither when the device reset callback runs before the
registered `cortexm_reset` handler nor in the opposite order, because
`cortexm_reset` performs the image re-materialization immediately before the
core reset with nothing in between; the actual single-trigger trace is RCC,
FLASH, GPIO A, USART1, image re-materialization, core. -/
theorem reset_order_counterexample :
    (stm32_mcu_reset_callback (stm32_mcu_realize_callback { stm32CapsMin with
        has_gpioa := true, has_usart1 := true }) ++ cortexm_reset ≠
      [ResetEvent.imageRemat, ResetEvent.rccReset, ResetEvent.flashReset,
       ResetEvent.gpioReset 0, ResetEvent.usartReset 0, ResetEvent.coreReset]) ∧
    (cortexm_reset ++ stm32_mcu_reset_callback (stm32_mcu_realize_callback
        { stm32CapsMin with has_gpioa := true, has_usart1 := true }) ≠
      [ResetEvent.imageRemat, ResetEvent.rccReset, ResetEvent.flashReset,
       ResetEvent.gpioReset 0, ResetEvent.usartReset 0, ResetEvent.coreReset]) ∧
    stm32_full_reset (stm32_mcu_realize_callback { stm32CapsMin with
        has_gpioa := true, has_usart1 := true }) =
      [ResetEvent.rccReset, ResetEvent.flashReset, ResetEvent.gpioReset 0,
       ResetEvent.usartReset 0, ResetEvent.imageRemat, ResetEvent.coreReset] := by
  decide

/-- C5 (amended): a single reset trigger resets, in order: the clock/reset
controller, the Flash controller, every enabled GPIO bank in ascending
letter order, every enabled serial port in ascending instance order, and
then re-materializes the boot image immediately before resetting the
processor core last (the trace is strictly sorted by `resetRank` and ends
with the image/core pair). -/
theorem reset_order_amended (s : STM32MCUState) :
    List.Pairwise (fun a b => resetRank a < resetRank b) (stm32_full_reset s) ∧
    ∃ front, stm32_full_reset s =
      front ++ [ResetEvent.imageRemat, ResetEvent.coreReset] := by
  have hrcc : List.Pairwise (fun a b => resetRank a < resetRank b)
      (if s.rcc then [ResetEvent.rccReset] else []) := by
    cases s.rcc <;> simp
  have hrccm : ∀ a ∈ (if s.rcc then [ResetEvent.rccReset] else []),
      resetRank a = 0 := by
    cases s.rcc <;> simp [resetRank]
  have hfl : List.Pairwise (fun a b => resetRank a < resetRank b)
      (if s.flash then [ResetEvent.flashReset] else []) := by
    cases s.flash <;> simp
  have hflm : ∀ a ∈ (if s.flash then [ResetEvent.flashReset] else []),
      resetRank a = 1 := by
    cases s.flash <;> simp [resetRank]
  constructor
  · unfold stm32_full_reset stm32_mcu_reset_callback
    apply pairwise_rank_append _ _ 18
    · apply pairwise_rank_append _ _ 12
      · apply pairwise_rank_append _ _ 1
        · apply pairwise_rank_append _ _ 0
          · exact hrcc
          · exact hfl
          · intro a ha
            exact le_of_eq (hrccm a ha)
          · intro b hb
            rw [hflm b hb]
            omega
        · exact gpio_resets_pairwise s
        · intro a ha
          rcases List.mem_append.mp ha with h | h
          · rw [hrccm a h]
            omega
          · rw [hflm a h]
        · intro b hb
          have := (gpio_resets_rank_bounds s b hb).1
          omega
      · exact usart_resets_pairwise s
      · intro a ha
        rcases List.mem_append.mp ha with h | h
        · rcases List.mem_append.mp h with h2 | h2
          · rw [hrccm a h2]
            omega
          · rw [hflm a h2]
            omega
        · exact (gpio_resets_rank_bounds s a h).2
      · intro b hb
        have := (usart_resets_rank_bounds s b hb).1
        omega
    · simp [cortexm_reset, resetRank]
    · intro a ha
      rcases List.mem_append.mp ha with h | h
      · rcases List.mem_append.mp h with h2 | h2
        · rcases List.mem_append.mp h2 with h3 | h3
          · rw [hrccm a h3]
            omega
          · rw [hflm a h3]
            omega
        · have := (gpio_resets_rank_bounds s a h2).2
          omega
      · exact (usart_resets_rank_bounds s a h).2
    · intro b hb
      rcases List.mem_cons.mp hb with h | h
      · subst h
        simp [resetRank]
      · rcases List.mem_cons.mp h with h2 | h2
        · subst h2
          simp [resetRank]
        · simp at h2
  · exact ⟨stm32_mcu_reset_callback s, rfl⟩
